import Mathlib

/-!
# Verification of the mogadishu-vista ingestion-and-placement pipeline

Shallow embedding of the tour ingestion pipeline:

* the `process-360-video` edge function (src/unnamed/part_000): builds five
  mock panorama rows, inserts them into the `locations` table, then deletes
  the processing placeholder by matching `user_id`, `location_type` and a
  title string, silently ignoring a failed delete;
* the `TourUpload` component (src/src/components/TourUpload.tsx): file
  selection filter, the upload guard, and the per-video placeholder insert;
* the row-level-security policies of the two migrations: SELECT policies on
  `public.locations` and on `storage.objects` for the `tour-images` bucket.

Database state is a list of `locations` rows; the calls to `Math.random`
and `Date.now` are modelled by explicit oracles; fallible external calls
(supabase insert/delete/upload) are modelled by explicit fault flags, since
the TypeScript client reports them as error values, not exceptions.
-/

namespace MogadishuVista

/-- A row of the `public.locations` table
(migration 20250819185709, lines 2-15). -/
structure LocationRow where
  user_id : String
  title : String
  description : String
  longitude : ℚ
  latitude : ℚ
  has_street_view : Bool
  street_view_image_url : String
  location_type : String
  is_public : Bool
  deriving DecidableEq, Repr

/-- The request body of the `process-360-video` function
(src/unnamed/part_000 lines 10-15). -/
structure ProcessingRequest where
  videoUrl : String
  tourTitle : String
  tourDescription : Option String
  userId : String
  deriving DecidableEq, Repr

/-- The five mock panorama rows built by the handler
(src/unnamed/part_000 lines 60-70).  The two `Math.random()` calls of row
`index` are modelled by the oracle `rand` at positions `2*index` and
`2*index + 1`. -/
def mockPanoramas (req : ProcessingRequest) (rand : Nat → ℚ) : List LocationRow :=
  (List.range 5).map fun (index : ℕ) =>
    { user_id := req.userId
      title := req.tourTitle ++ " - Panorama " ++ toString (index + 1)
      description := req.tourDescription.getD
        ("Auto-extracted 360° panorama " ++ toString (index + 1) ++ " from video")
      longitude := 45.3254 + (index : ℚ) * 0.002 + (rand (2 * index : ℕ) - 0.5) * 0.001
      latitude := 2.0469 + (index : ℚ) * 0.001 + (rand (2 * index + 1 : ℕ) - 0.5) * 0.0005
      has_street_view := true
      street_view_image_url := req.videoUrl
      location_type := "video_panorama"
      is_public := false }

/-- The filter of the placeholder delete
(src/unnamed/part_000 lines 83-88): matches on `user_id`,
`location_type = 'video_processing'` and the title string. -/
def isProcessingPlaceholder (userId tourTitle : String) (row : LocationRow) : Bool :=
  row.user_id = userId && row.location_type = "video_processing" &&
    row.title = tourTitle ++ " - Processing"

/-- A supabase `insert` of a list of rows: appends them to the table. -/
def insertRows (db new : List LocationRow) : List LocationRow :=
  db ++ new

/-- The placeholder delete of the handler: removes every row matching
`isProcessingPlaceholder`. -/
def deletePlaceholders (db : List LocationRow) (userId tourTitle : String) :
    List LocationRow :=
  db.filter fun row => !(isProcessingPlaceholder userId tourTitle row)

/-- The HTTP outcome of the handler: the success JSON
(src/unnamed/part_000 lines 96-102) or the 500 error response
(lines 106-112). -/
inductive HandlerResult where
  | success (panoramasCreated : Nat)
  | failure (status : Nat)
  deriving DecidableEq, Repr

/-- The fault points of the handler: the panorama insert can fail
(line 77, thrown and caught as a 500) and the placeholder delete can fail
(line 90, logged and ignored). -/
structure Faults where
  insertError : Bool
  deleteError : Bool
  deriving DecidableEq, Repr

/-- One run of the handler: the sequence of observable database states and
the HTTP result. -/
structure HandlerRun where
  states : List (List LocationRow)
  result : HandlerResult
  deriving DecidableEq, Repr

/-- The `process-360-video` handler body (src/unnamed/part_000 lines
59-113) as a state trace.  It inserts `mockPanoramas` (throwing into the
catch block's 500 response when the insert errors), then deletes the
processing placeholder in a second, separate statement whose error is only
logged; each completed statement yields an observable state. -/
def processVideo (db : List LocationRow) (req : ProcessingRequest)
    (rand : Nat → ℚ) (f : Faults) : HandlerRun :=
  if f.insertError then
    { states := [db], result := .failure 500 }
  else
    let db1 := insertRows db (mockPanoramas req rand)
    if f.deleteError then
      { states := [db, db1], result := .success 5 }
    else
      { states := [db, db1, deletePlaceholders db1 req.userId req.tourTitle],
        result := .success 5 }

/-- The database state after the handler finishes. -/
def finalDb (r : HandlerRun) : List LocationRow :=
  r.states.getLastD []

/-- A file descriptor as seen by `handleFileSelect`
(src/src/components/TourUpload.tsx): name, declared MIME type and size in
bytes. -/
structure FileDesc where
  name : String
  type : String
  size : Nat
  deriving DecidableEq, Repr

/-- `startsWith` on strings, modelled on the underlying character list so
that concrete instances are kernel-reducible. -/
def strStartsWith (s pre : String) : Bool :=
  s.data.take pre.data.length = pre.data

/-- The acceptance test of `handleFileSelect`
(TourUpload.tsx line 56): only the declared MIME type is examined. -/
def isAcceptedFile (f : FileDesc) : Bool :=
  strStartsWith f.type "video/"

/-- The `handleFileSelect` loop (TourUpload.tsx lines 52-73): each selected
file is appended to the video list when its type starts with "video/",
otherwise an error toast is recorded and the loop continues with the next
file.  Returns the new video list and the error messages. -/
def handleFileSelect (videos : List FileDesc) (files : List FileDesc) :
    List FileDesc × List String :=
  files.foldl
    (fun acc f =>
      if isAcceptedFile f then (acc.1 ++ [f], acc.2)
      else (acc.1, acc.2 ++ [f.name ++ " is not a video file"]))
    (videos, [])

/-- The processing-placeholder row inserted by `uploadTour`
(TourUpload.tsx lines 117-129).  The two `Math.random()` draws are the
oracle values `rlng` and `rlat`. -/
def placeholderRow (userId tourTitle sizeStr publicUrl : String)
    (rlng rlat : ℚ) : LocationRow :=
  { user_id := userId
    title := tourTitle ++ " - Processing"
    description := "360° video processing in progress - " ++ sizeStr
    longitude := 45.3254 + (rlng - 0.5) * 0.02
    latitude := 2.0469 + (rlat - 0.5) * 0.02
    has_street_view := false
    street_view_image_url := publicUrl
    location_type := "video_processing"
    is_public := false }

/-- The placeholder insert of `uploadTour`: a plain supabase `insert` of
one row, with no conflict key and no upsert. -/
def insertPlaceholder (db : List LocationRow) (userId tourTitle sizeStr publicUrl : String)
    (rlng rlat : ℚ) : List LocationRow :=
  db ++ [placeholderRow userId tourTitle sizeStr publicUrl rlng rlat]

/-- The external state touched by `uploadTour`: the storage object names
uploaded to the `tour-images` bucket, the `locations` table, and the
requests passed to `supabase.functions.invoke`. -/
structure UploadState where
  storage : List String
  db : List LocationRow
  invocations : List ProcessingRequest
  deriving DecidableEq, Repr

/-- The per-iteration fault points of the `uploadTour` loop: the storage
upload can fail (line 103, toast + continue) and the placeholder insert
can fail (line 131, toast only, the processing call still happens). -/
structure UploadFaults where
  uploadError : Nat → Bool
  dbError : Nat → Bool

/-- `getPublicUrl` for a storage object of the `tour-images` bucket
(TourUpload.tsx lines 112-114), modelled as a deterministic function of
the object name. -/
def publicUrlOf (fileName : String) : String :=
  "tour-images/" ++ fileName

/-- The body of one iteration of the `uploadTour` loop
(TourUpload.tsx lines 94-150) for video `i`: upload the file to storage
under a name derived from the user id, the clock and the index; on upload
failure skip the rest of the iteration; otherwise insert the processing
placeholder (failure only toasts) and invoke `process-360-video`. -/
def uploadTourStep (uid tourTitle tourDescription : String) (st : UploadState)
    (now : Nat → Nat) (rand : Nat → ℚ) (f : UploadFaults)
    (i : Nat) (v : FileDesc) : UploadState :=
  let fileName := uid ++ "/" ++ toString (now i) ++ "_" ++ toString i ++ "_" ++ v.name
  if f.uploadError i then
    st
  else
    let st1 : UploadState := { st with storage := st.storage ++ [fileName] }
    let publicUrl := publicUrlOf fileName
    let st2 : UploadState :=
      if f.dbError i then st1
      else { st1 with
        db := insertPlaceholder st1.db uid tourTitle (toString v.size) publicUrl
          (rand (2 * i : ℕ)) (rand (2 * i + 1 : ℕ)) }
    { st2 with invocations := st2.invocations ++
        [{ videoUrl := publicUrl, tourTitle := tourTitle,
           tourDescription := some tourDescription, userId := uid }] }

/-- `uploadTour` (TourUpload.tsx lines 84-164): the guard rejects a missing
user, a blank title or an empty video list before any side effect; the
body runs `uploadTourStep` over the videos in order.  The returned Bool is
true when the guard passed. -/
def uploadTour (st : UploadState) (user : Option String)
    (tourTitle tourDescription : String) (videos : List FileDesc)
    (now : Nat → Nat) (rand : Nat → ℚ) (f : UploadFaults) :
    UploadState × Bool :=
  match user with
  | none => (st, false)
  | some uid =>
    if tourTitle.trim = "" || videos.isEmpty then (st, false)
    else
      (((videos.enum).foldl
        (fun acc iv => uploadTourStep uid tourTitle tourDescription acc now rand f iv.1 iv.2)
        st), true)

/-- The union of the two SELECT policies on `public.locations`
(migration 20250819185709 lines 21-29): a row is readable when it is
`is_public` or the authenticated user is its owner. -/
def locationSelectAllowed (requester : Option String) (row : LocationRow) : Bool :=
  row.is_public || requester = some row.user_id

/-- An object of `storage.objects`: bucket id and object name. -/
structure StorageObject where
  bucket : String
  name : String
  deriving DecidableEq, Repr

/-- `(storage.foldername(name))[1]`: the first folder of the object name,
i.e. the characters before the first path separator. -/
def firstFolder (name : String) : String :=
  String.mk (name.data.takeWhile fun c => c != '/')

/-- The union of the two SELECT policies on `storage.objects` for the
`tour-images` bucket (migration 20250820200148 lines 10-18): the
owner-scoped policy plus the bucket-wide public policy. -/
def storageSelectAllowed (requester : Option String) (obj : StorageObject) : Bool :=
  (obj.bucket = "tour-images" && requester = some (firstFolder obj.name)) ||
    obj.bucket = "tour-images"

/-- The spec's read access rule (spec section 4.4 query contract), stated
from the spec's words for comparison with the enforced policies: an entity
with owner `owner` and visibility `isPublic` is readable iff it is public
or the requester is the owner. -/
def specReadAllowed (requester : Option String) (owner : String) (isPublic : Bool) : Bool :=
  isPublic || requester = some owner

/-- The spec's validation rule (spec section 4.1), stated from the spec's
words for comparison with `isAcceptedFile`: the declared media kind is
image or video, the size is within the bound, and the file is non-empty. -/
def specAcceptsFile (sizeBound : Nat) (f : FileDesc) : Bool :=
  (strStartsWith f.type "image/" || strStartsWith f.type "video/") &&
    f.size ≤ sizeBound && f.size != 0

/-- A final entity: the handler inserts every final panorama row with the
fixed location type `video_panorama`. -/
def isFinalPanorama (row : LocationRow) : Bool :=
  row.location_type = "video_panorama"

/-- Concrete processing request: user `u` submits tour `Foo` with one
video. -/
def req0 : ProcessingRequest :=
  { videoUrl := "tour-images/u/0_0_a.mp4", tourTitle := "Foo",
    tourDescription := none, userId := "u" }

/-- The placeholder row that `uploadTour` inserts for `req0`'s video
(random draws fixed at 0). -/
def ph0 : LocationRow :=
  placeholderRow "u" "Foo" "100" "tour-images/u/0_0_a.mp4" 0 0

/-- Processing request of a second, distinct tour of the same owner `u`
that happens to carry the same title string `Foo`. -/
def reqA : ProcessingRequest :=
  { videoUrl := "tour-images/u/10_0_a.mp4", tourTitle := "Foo",
    tourDescription := none, userId := "u" }

/-- Placeholder of the tour behind `reqA`. -/
def phA : LocationRow :=
  placeholderRow "u" "Foo" "100" "tour-images/u/10_0_a.mp4" 0 0

/-- Placeholder of a different tour of the same owner with the same title
string, distinguished by its video object. -/
def phB : LocationRow :=
  placeholderRow "u" "Foo" "200" "tour-images/u/20_0_b.mp4" 0 0

/-- A small, non-empty image file. -/
def img0 : FileDesc :=
  { name := "photo.jpg", type := "image/jpeg", size := 2048 }

/-- A zero-byte video file. -/
def emptyVid : FileDesc :=
  { name := "clip.mp4", type := "video/mp4", size := 0 }

/-- An ordinary video file. -/
def vid0 : FileDesc :=
  { name := "tour.mp4", type := "video/mp4", size := 4096 }

/-- A storage object of the `tour-images` bucket owned by `alice`. -/
def objAlice : StorageObject :=
  { bucket := "tour-images", name := "alice/v.mp4" }

/-- An empty external state for `uploadTour`. -/
def st0 : UploadState :=
  { storage := [], db := [], invocations := [] }

/-- Upload faults with every external call succeeding. -/
def noFaultsUpload : UploadFaults :=
  { uploadError := fun _ => false, dbError := fun _ => false }

/-! ## Helper lemmas shared by the claim theorems -/

/-- No row built by `mockPanoramas` matches the processing-placeholder
key: its location type is `video_panorama`, never `video_processing`. -/
theorem mockPanoramas_not_placeholder (req : ProcessingRequest) (rand : Nat → ℚ)
    (u t : String) :
    (mockPanoramas req rand).countP (fun r => isProcessingPlaceholder u t r) = 0 := by
  simp [mockPanoramas, isProcessingPlaceholder, List.countP_map, Function.comp_def]

/-- Every row built by `mockPanoramas` is a final panorama, and there are
five of them. -/
theorem mockPanoramas_countP_final (req : ProcessingRequest) (rand : Nat → ℚ) :
    (mockPanoramas req rand).countP isFinalPanorama = 5 := by
  simp [mockPanoramas, isFinalPanorama, List.countP_map, Function.comp_def]

/-- The database state after a fault-free handler run is the insert
followed by the placeholder delete. -/
theorem finalDb_success (db : List LocationRow) (req : ProcessingRequest)
    (rand : Nat → ℚ) :
    finalDb (processVideo db req rand ⟨false, false⟩) =
      deletePlaceholders (insertRows db (mockPanoramas req rand))
        req.userId req.tourTitle := by
  simp [processVideo, finalDb]

/-- After `deletePlaceholders` no row matching its key remains. -/
theorem deletePlaceholders_countP_self (db : List LocationRow) (u t : String) :
    (deletePlaceholders db u t).countP (fun r => isProcessingPlaceholder u t r) = 0 := by
  simp [deletePlaceholders, List.countP_filter]

/-- A final panorama never matches the placeholder key. -/
theorem isFinalPanorama_not_placeholder (u t : String) (r : LocationRow)
    (h : isFinalPanorama r = true) :
    isProcessingPlaceholder u t r = false := by
  simp only [isFinalPanorama, decide_eq_true_eq] at h
  simp [isProcessingPlaceholder, h]

/-- `deletePlaceholders` does not change the number of final panoramas. -/
theorem deletePlaceholders_countP_final (db : List LocationRow) (u t : String) :
    (deletePlaceholders db u t).countP isFinalPanorama =
      db.countP isFinalPanorama := by
  rw [deletePlaceholders, List.countP_filter]
  refine List.countP_congr ?_
  intro r _
  cases hf : isFinalPanorama r
  · simp [hf]
  · simp [hf, isFinalPanorama_not_placeholder u t r hf]

/-! ## Claim theorems -/

/-- Claim C1 counterexample: when the companion placeholder delete fails
(its error is only logged, src/unnamed/part_000 lines 90-92), the handler
still answers success while the final state holds both the tour's
placeholder and all five inserted final entities — the insert happened and
the delete did not, so the commit step is not atomic. -/
theorem C1_counterexample :
    (processVideo [ph0] req0 (fun _ => 0) ⟨false, true⟩).result =
      HandlerResult.success 5 ∧
    (finalDb (processVideo [ph0] req0 (fun _ => 0) ⟨false, true⟩)).countP
      (fun r => isProcessingPlaceholder "u" "Foo" r) = 1 ∧
    (finalDb (processVideo [ph0] req0 (fun _ => 0) ⟨false, true⟩)).countP
      isFinalPanorama = 5 := by
  decide

/-- Claim C1 (amended): the commit step is two separate statements, not one
atomic operation.  On the fault-free path the handler first inserts the
five final rows — the observable state after the insert still holds every
pre-existing placeholder together with the complete final set — and only
the second statement deletes the placeholders, leaving a final state with
no placeholder for the tour key. -/
theorem C1_two_phase_commit (db : List LocationRow) (req : ProcessingRequest)
    (rand : Nat → ℚ) :
    (processVideo db req rand ⟨false, false⟩).result = HandlerResult.success 5 ∧
    (∃ mid ∈ (processVideo db req rand ⟨false, false⟩).states,
      mid.countP (fun r => isProcessingPlaceholder req.userId req.tourTitle r) =
        db.countP (fun r => isProcessingPlaceholder req.userId req.tourTitle r) ∧
      mid.countP isFinalPanorama = db.countP isFinalPanorama + 5) ∧
    (finalDb (processVideo db req rand ⟨false, false⟩)).countP
      (fun r => isProcessingPlaceholder req.userId req.tourTitle r) = 0 := by
  refine ⟨rfl, ⟨insertRows db (mockPanoramas req rand), ?_, ?_, ?_⟩, ?_⟩
  · simp [processVideo]
  · simp [insertRows, List.countP_append, mockPanoramas_not_placeholder]
  · simp [insertRows, List.countP_append, mockPanoramas_countP_final]
  · rw [finalDb_success]
    exact deletePlaceholders_countP_self _ _ _

/-- Claim C1 witness: the amended two-phase-commit theorem evaluated on the
concrete one-placeholder database. -/
theorem C1_two_phase_commit_witness :
    (processVideo [ph0] req0 (fun _ => 0) ⟨false, false⟩).result =
      HandlerResult.success 5 ∧
    (∃ mid ∈ (processVideo [ph0] req0 (fun _ => 0) ⟨false, false⟩).states,
      mid.countP (fun r => isProcessingPlaceholder req0.userId req0.tourTitle r) =
        [ph0].countP (fun r => isProcessingPlaceholder req0.userId req0.tourTitle r) ∧
      mid.countP isFinalPanorama = [ph0].countP isFinalPanorama + 5) ∧
    (finalDb (processVideo [ph0] req0 (fun _ => 0) ⟨false, false⟩)).countP
      (fun r => isProcessingPlaceholder req0.userId req0.tourTitle r) = 0 :=
  C1_two_phase_commit [ph0] req0 (fun _ => 0)

/-- Claim C2 counterexample: a batch of one accepted unit (so K ≤ 1) whose
job completes leaves five final entities in the store, not K — the handler
always fabricates exactly five panoramas. -/
theorem C2_counterexample :
    (processVideo [ph0] req0 (fun _ => 0) ⟨false, false⟩).result =
      HandlerResult.success 5 ∧
    (finalDb (processVideo [ph0] req0 (fun _ => 0) ⟨false, false⟩)).countP
      isFinalPanorama = 5 ∧
    ¬(5 ≤ 1) := by
  decide

/-- Claim C2 (amended): when the handler run completes and both statements
succeed, the store gains exactly five final entities per processed video —
a fixed count independent of the number of accepted or succeeded units —
and zero placeholders for the tour key remain. -/
theorem C2_completed_store (db : List LocationRow) (req : ProcessingRequest)
    (rand : Nat → ℚ) :
    (processVideo db req rand ⟨false, false⟩).result = HandlerResult.success 5 ∧
    (finalDb (processVideo db req rand ⟨false, false⟩)).countP isFinalPanorama =
      db.countP isFinalPanorama + 5 ∧
    (finalDb (processVideo db req rand ⟨false, false⟩)).countP
      (fun r => isProcessingPlaceholder req.userId req.tourTitle r) = 0 := by
  refine ⟨rfl, ?_, ?_⟩
  · rw [finalDb_success, deletePlaceholders_countP_final, insertRows,
      List.countP_append, mockPanoramas_countP_final]
  · rw [finalDb_success]
    exact deletePlaceholders_countP_self _ _ _

/-- Claim C2 witness: the amended store-count theorem evaluated on the
concrete one-placeholder database. -/
theorem C2_completed_store_witness :
    (processVideo [ph0] req0 (fun _ => 0) ⟨false, false⟩).result =
      HandlerResult.success 5 ∧
    (finalDb (processVideo [ph0] req0 (fun _ => 0) ⟨false, false⟩)).countP
      isFinalPanorama = [ph0].countP isFinalPanorama + 5 ∧
    (finalDb (processVideo [ph0] req0 (fun _ => 0) ⟨false, false⟩)).countP
      (fun r => isProcessingPlaceholder req0.userId req0.tourTitle r) = 0 :=
  C2_completed_store [ph0] req0 (fun _ => 0)

/-- Claim C4 counterexample: the job reaches its terminal success response
while the placeholder survives, because the delete error is silently
ignored — the placeholder-iff-non-terminal invariant fails. -/
theorem C4_counterexample :
    (processVideo [ph0] req0 (fun _ => 0) ⟨false, true⟩).result =
      HandlerResult.success 5 ∧
    (finalDb (processVideo [ph0] req0 (fun _ => 0) ⟨false, true⟩)).countP
      (fun r => isProcessingPlaceholder "u" "Foo" r) = 1 := by
  decide

/-- Claim C4 (amended): no placeholder for the tour key survives a
fault-free run, but when the separate delete fails the final state is just
the insert — every pre-existing placeholder survives the terminal state —
so the invariant holds only on runs whose delete succeeds. -/
theorem C4_placeholder_cleared (db : List LocationRow) (req : ProcessingRequest)
    (rand : Nat → ℚ) :
    (finalDb (processVideo db req rand ⟨false, false⟩)).countP
      (fun r => isProcessingPlaceholder req.userId req.tourTitle r) = 0 ∧
    finalDb (processVideo db req rand ⟨false, true⟩) =
      insertRows db (mockPanoramas req rand) := by
  constructor
  · rw [finalDb_success]
    exact deletePlaceholders_countP_self _ _ _
  · simp [processVideo, finalDb]

/-- Claim C4 witness: the amended cleanup theorem evaluated on the concrete
one-placeholder database. -/
theorem C4_placeholder_cleared_witness :
    (finalDb (processVideo [ph0] req0 (fun _ => 0) ⟨false, false⟩)).countP
      (fun r => isProcessingPlaceholder req0.userId req0.tourTitle r) = 0 ∧
    finalDb (processVideo [ph0] req0 (fun _ => 0) ⟨false, true⟩) =
      insertRows [ph0] (mockPanoramas req0 (fun _ => 0)) :=
  C4_placeholder_cleared [ph0] req0 (fun _ => 0)

/-- Claim C5 counterexample: on the error path (failed panorama insert,
caught as a 500) the handler deletes nothing — the tour's placeholder is
still in the store, not zero entities. -/
theorem C5_counterexample :
    (processVideo [ph0] req0 (fun _ => 0) ⟨true, false⟩).result =
      HandlerResult.failure 500 ∧
    (finalDb (processVideo [ph0] req0 (fun _ => 0) ⟨true, false⟩)).countP
      (fun r => isProcessingPlaceholder "u" "Foo" r) = 1 := by
  decide

/-- Claim C5 (amended): the failure path performs no rollback: the handler
answers 500 and leaves the database exactly as it was, so every
pre-existing PlacementEntity — placeholder or final — remains. -/
theorem C5_failure_no_rollback (db : List LocationRow) (req : ProcessingRequest)
    (rand : Nat → ℚ) (d : Bool) :
    (processVideo db req rand ⟨true, d⟩).result = HandlerResult.failure 500 ∧
    finalDb (processVideo db req rand ⟨true, d⟩) = db := by
  exact ⟨rfl, rfl⟩

/-- Claim C5 witness: the amended no-rollback theorem evaluated on the
concrete one-placeholder database. -/
theorem C5_failure_no_rollback_witness :
    (processVideo [ph0] req0 (fun _ => 0) ⟨true, false⟩).result =
      HandlerResult.failure 500 ∧
    finalDb (processVideo [ph0] req0 (fun _ => 0) ⟨true, false⟩) = [ph0] :=
  C5_failure_no_rollback [ph0] req0 (fun _ => 0) false

/-- Claim C6 counterexample: invoking the placeholder insert twice with the
same (user, tour) key leaves two rows, not the single row idempotency
demands. -/
theorem C6_counterexample :
    (insertPlaceholder (insertPlaceholder [] "u" "Foo" "100" "url" 0 0)
        "u" "Foo" "100" "url" 0 0).length = 2 ∧
    (insertPlaceholder [] "u" "Foo" "100" "url" 0 0).length = 1 ∧
    (2 : ℕ) ≠ 1 := by
  decide

/-- Claim C6 (amended): placeholder creation is a plain insert with no
conflict key and no upsert: every invocation appends one more row matching
the (user, tour) placeholder key, so a retry is never a no-op. -/
theorem C6_insert_not_idempotent (db : List LocationRow)
    (uid t s url : String) (rlng rlat : ℚ) :
    (insertPlaceholder db uid t s url rlng rlat).countP
      (fun r => isProcessingPlaceholder uid t r) =
      db.countP (fun r => isProcessingPlaceholder uid t r) + 1 := by
  simp [insertPlaceholder, placeholderRow, isProcessingPlaceholder]

/-- Claim C6 witness: the amended non-idempotency theorem evaluated on the
empty database. -/
theorem C6_insert_not_idempotent_witness :
    (insertPlaceholder [] "u" "Foo" "100" "url" 0 0).countP
      (fun r => isProcessingPlaceholder "u" "Foo" r) =
      ([] : List LocationRow).countP (fun r => isProcessingPlaceholder "u" "Foo" r) + 1 :=
  C6_insert_not_idempotent [] "u" "Foo" "100" "url" 0 0

/-- Claim C3 counterexample: the committed sequence for a tour of three
submitted units is not those units ordered by timestamp with indices 0..2:
it is five fabricated panoramas whose titles carry the fixed numbers 1..5,
and no extraction timestamp exists anywhere in the handler's input. -/
theorem C3_counterexample :
    ((mockPanoramas req0 (fun _ => 0)).map (fun r => r.title)) =
      ["Foo - Panorama 1", "Foo - Panorama 2", "Foo - Panorama 3",
       "Foo - Panorama 4", "Foo - Panorama 5"] ∧
    (mockPanoramas req0 (fun _ => 0)).length ≠ 3 := by
  decide

/-- Claim C3 (amended): the committed sequence is fabricated in index
order: five panoramas titled 1..5, whose longitudes are strictly
increasing in the fabrication index whenever every random draw lies in
[0, 1) — the interval `Math.random` guarantees — with no dependence on
submitted units or extraction timestamps. -/
theorem C3_fabricated_order (req : ProcessingRequest) (rand : Nat → ℚ)
    (h : ∀ k, 0 ≤ rand k ∧ rand k < 1) :
    ((mockPanoramas req rand).map (fun r => r.title)) =
      [req.tourTitle ++ " - Panorama 1", req.tourTitle ++ " - Panorama 2",
       req.tourTitle ++ " - Panorama 3", req.tourTitle ++ " - Panorama 4",
       req.tourTitle ++ " - Panorama 5"] ∧
    List.Chain' (fun a b => a < b)
      ((mockPanoramas req rand).map (fun r => r.longitude)) := by
  have e1 : (" - Panorama " ++ toString ((0 : ℕ) + 1) : String) = " - Panorama 1" := rfl
  have e2 : (" - Panorama " ++ toString ((1 : ℕ) + 1) : String) = " - Panorama 2" := rfl
  have e3 : (" - Panorama " ++ toString ((2 : ℕ) + 1) : String) = " - Panorama 3" := rfl
  have e4 : (" - Panorama " ++ toString ((3 : ℕ) + 1) : String) = " - Panorama 4" := rfl
  have e5 : (" - Panorama " ++ toString ((4 : ℕ) + 1) : String) = " - Panorama 5" := rfl
  have hrange : List.range 5 = [0, 1, 2, 3, 4] := rfl
  have h0 := h 0
  have h2 := h 2
  have h4 := h 4
  have h6 := h 6
  have h8 := h 8
  constructor
  · simp [mockPanoramas, hrange, String.append_assoc, e1, e2, e3, e4, e5]
  · simp only [mockPanoramas, hrange, List.map_cons, List.map_nil,
      List.chain'_cons, List.chain'_singleton, and_true]
    norm_num
    refine ⟨?_, ?_, ?_, ?_⟩ <;>
      nlinarith [h0.1, h0.2, h2.1, h2.2, h4.1, h4.2, h6.1, h6.2, h8.1, h8.2]

/-- Claim C3 witness: the amended index-order theorem evaluated at the
concrete request with all random draws 0. -/
theorem C3_fabricated_order_witness :
    ((mockPanoramas req0 (fun _ => 0)).map (fun r => r.title)) =
      [req0.tourTitle ++ " - Panorama 1", req0.tourTitle ++ " - Panorama 2",
       req0.tourTitle ++ " - Panorama 3", req0.tourTitle ++ " - Panorama 4",
       req0.tourTitle ++ " - Panorama 5"] ∧
    List.Chain' (fun a b => a < b)
      ((mockPanoramas req0 (fun _ => 0)).map (fun r => r.longitude)) :=
  C3_fabricated_order req0 (fun _ => 0)
    (fun _ => ⟨le_refl 0, by norm_num⟩)

/-- Unfolding of the `handleFileSelect` fold from an arbitrary
accumulator: accepted files are appended in order, each rejected file
contributes one error message, and neither interferes with the other. -/
theorem handleFileSelect_go (files : List FileDesc) (vs : List FileDesc) (es : List String) :
    files.foldl
      (fun acc f =>
        if isAcceptedFile f then (acc.1 ++ [f], acc.2)
        else (acc.1, acc.2 ++ [f.name ++ " is not a video file"]))
      (vs, es) =
    (vs ++ files.filter isAcceptedFile,
     es ++ (files.filter (fun f => !isAcceptedFile f)).map
       (fun f => f.name ++ " is not a video file")) := by
  induction files generalizing vs es with
  | nil => simp
  | cons f fs ih =>
    by_cases hf : isAcceptedFile f <;>
      simp [hf, ih, List.filter_cons]

/-- Claim C7 counterexample: a small non-empty image file satisfies the
spec's acceptance rule but is rejected by the code, and a zero-byte video
file violates the spec's rule but is accepted — acceptance is not
"image or video, within bound, non-empty". -/
theorem C7_counterexample :
    specAcceptsFile 1000000 img0 = true ∧ isAcceptedFile img0 = false ∧
    (handleFileSelect [] [img0]).1 = [] ∧
    specAcceptsFile 1000000 emptyVid = false ∧ isAcceptedFile emptyVid = true ∧
    (handleFileSelect [] [emptyVid]).1 = [emptyVid] := by
  decide

/-- Claim C7 (amended): file selection accepts a file iff its declared
MIME type starts with "video/" — no size or emptiness check — and each
rejection is reported for that unit alone: the resulting list is the
previous list plus exactly the accepted files in order, so a rejected file
never aborts processing of the remaining files. -/
theorem C7_video_only_filter (videos files : List FileDesc) :
    (handleFileSelect videos files).1 = videos ++ files.filter isAcceptedFile ∧
    (handleFileSelect videos files).2 =
      (files.filter (fun f => !isAcceptedFile f)).map
        (fun f => f.name ++ " is not a video file") := by
  unfold handleFileSelect
  rw [handleFileSelect_go]
  simp

/-- Claim C7 witness: the amended filter theorem evaluated on a batch with
a rejected image between two accepted videos. -/
theorem C7_video_only_filter_witness :
    (handleFileSelect [] [vid0, img0, emptyVid]).1 =
      [] ++ [vid0, img0, emptyVid].filter isAcceptedFile ∧
    (handleFileSelect [] [vid0, img0, emptyVid]).2 =
      ([vid0, img0, emptyVid].filter (fun f => !isAcceptedFile f)).map
        (fun f => f.name ++ " is not a video file") :=
  C7_video_only_filter [] [vid0, img0, emptyVid]

/-- Claim C8 counterexample: requester `bob` may read `alice`'s stored
media object through the bucket-wide public SELECT policy even though the
object is not his and the rows referencing uploaded media are created
non-public — the owner-or-public rule is not enforced on the storage read
path. -/
theorem C8_counterexample :
    storageSelectAllowed (some "bob") objAlice = true ∧
    firstFolder objAlice.name = "alice" ∧
    specReadAllowed (some "bob") "alice" false = false ∧
    (placeholderRow "alice" "Foo" "100" (publicUrlOf "alice/v.mp4") 0 0).is_public = false := by
  decide

/-- Claim C8 (amended): the `locations` read path enforces exactly the
public-or-owner rule, but the storage read path does not: every requester
may read every object of the `tour-images` bucket, because the bucket-wide
public SELECT policy carries no owner or visibility condition. -/
theorem C8_read_paths (requester : Option String) (row : LocationRow) (name : String) :
    locationSelectAllowed requester row =
      specReadAllowed requester row.user_id row.is_public ∧
    storageSelectAllowed requester ⟨"tour-images", name⟩ = true := by
  exact ⟨rfl, by simp [storageSelectAllowed]⟩

/-- Claim C8 witness: the amended read-path theorem evaluated for requester
`bob` on the placeholder row and `alice`'s object name. -/
theorem C8_read_paths_witness :
    locationSelectAllowed (some "bob") ph0 =
      specReadAllowed (some "bob") ph0.user_id ph0.is_public ∧
    storageSelectAllowed (some "bob") ⟨"tour-images", "alice/v.mp4"⟩ = true :=
  C8_read_paths (some "bob") ph0 "alice/v.mp4"

/-- Claim C9 counterexample: two distinct tours of owner `u` share the
title string `Foo`; processing the first tour deletes the second tour's
placeholder (identified by its distinct video object), because the delete
is keyed by title string, not by tour or unit id. -/
theorem C9_counterexample :
    ([phA, phB].countP
      (fun r => r.street_view_image_url = "tour-images/u/20_0_b.mp4")) = 1 ∧
    ((finalDb (processVideo [phA, phB] reqA (fun _ => 0) ⟨false, false⟩)).countP
      (fun r => r.street_view_image_url = "tour-images/u/20_0_b.mp4")) = 0 := by
  decide

/-- Claim C9 (amended): processing a tour rewrites the store to exactly the
rows not matching the (user, type, title-string) delete key — every row of
a different owner or different title survives unchanged and in order — plus
the five new panoramas; rows of a distinct tour matching the same key are
deleted, so isolation holds only between tours with distinct (owner, title)
pairs. -/
theorem C9_delete_by_title_frame (db : List LocationRow) (req : ProcessingRequest)
    (rand : Nat → ℚ) :
    finalDb (processVideo db req rand ⟨false, false⟩) =
      db.filter (fun r => !(isProcessingPlaceholder req.userId req.tourTitle r)) ++
        mockPanoramas req rand := by
  rw [finalDb_success, deletePlaceholders, insertRows, List.filter_append]
  congr 1
  refine List.filter_eq_self.mpr ?_
  intro r hr
  simp [mockPanoramas] at hr
  obtain ⟨i, hi, rfl⟩ := hr
  simp [isProcessingPlaceholder]

/-- Claim C9 witness: the amended frame theorem evaluated on the
two-placeholder database of the counterexample. -/
theorem C9_delete_by_title_frame_witness :
    finalDb (processVideo [phA, phB] reqA (fun _ => 0) ⟨false, false⟩) =
      [phA, phB].filter
        (fun r => !(isProcessingPlaceholder reqA.userId reqA.tourTitle r)) ++
        mockPanoramas reqA (fun _ => 0) :=
  C9_delete_by_title_frame [phA, phB] reqA (fun _ => 0)

/-- Claim C10 (confirmed): when the submission precondition is unmet — no
authenticated user, a title that trims to empty, or no videos — `uploadTour`
returns before any side effect: the storage, database and invocation state
are all unchanged and only the per-call error is reported. -/
theorem C10_guard_no_side_effect (st : UploadState) (user : Option String)
    (tourTitle tourDescription : String) (videos : List FileDesc)
    (now : Nat → Nat) (rand : Nat → ℚ) (f : UploadFaults)
    (h : user = none ∨ tourTitle.trim = "" ∨ videos = []) :
    uploadTour st user tourTitle tourDescription videos now rand f = (st, false) := by
  rcases h with h | h | h
  · subst h
    rfl
  · cases user with
    | none => rfl
    | some uid => simp [uploadTour, h]
  · cases user with
    | none => rfl
    | some uid =>
      subst h
      simp [uploadTour]

/-- Claim C10 witness: the guard theorem evaluated with no authenticated
user on a non-empty state. -/
theorem C10_guard_no_side_effect_witness :
    uploadTour st0 none "Tour" "" [vid0] (fun _ => 0) (fun _ => 0) noFaultsUpload =
      (st0, false) :=
  C10_guard_no_side_effect st0 none "Tour" "" [vid0] (fun _ => 0) (fun _ => 0)
    noFaultsUpload (Or.inl rfl)

end MogadishuVista
